import Mathlib

/-!
Verification development for the `webgl-experiments` DNA viewer
(`src/dna/main.js`).  The file shallowly embeds the two algorithmic
subsystems of the `Renderer` class:

* the auto-framing pipeline inside the OBJ-load success callback of
  `Renderer.loadModel` (lines 144-204), modelled over exact rationals
  (the viewport height enters as a parameter `H`);
* the idle rotation animator `Renderer.updateRotation` (lines 109-123)
  and the viewport-height expression (lines 153-154), modelled over the
  reals, with `Math.PI` embedded as `Real.pi` and `Math.random()` draws
  passed in as explicit arguments.

Definitions follow the source; the two `Spec…` definitions are modelled
from the natural-language specification (its §4.3 algorithm and the
§4.2 contract) and exist only to be compared with the code's behaviour.
-/

namespace DnaViewer

/-- A 3-vector with exact rational components (`THREE.Vector3`). -/
structure Vec3 where
  x : ℚ
  y : ℚ
  z : ℚ
deriving DecidableEq, Repr

/-- A 3x3 matrix given by rows, acting on column vectors
(`THREE.Matrix3`-style rotation part of an object's local matrix). -/
structure Mat3 where
  row1 : Vec3
  row2 : Vec3
  row3 : Vec3
deriving DecidableEq, Repr

def dot (a b : Vec3) : ℚ := a.x * b.x + a.y * b.y + a.z * b.z

def Mat3.mulVec (m : Mat3) (v : Vec3) : Vec3 :=
  ⟨dot m.row1 v, dot m.row2 v, dot m.row3 v⟩

/-- The identity rotation (`object.rotation.set(0,0,0)` in matrix form). -/
def idMat : Mat3 := ⟨⟨1,0,0⟩, ⟨0,1,0⟩, ⟨0,0,1⟩⟩

/-- The fixed reorientation of `main.js` lines 167-168:
`rotation.x = -PI/2; rotation.y = PI/2`, Euler order `XYZ`
(`three.js` composes `R = Rx * Ry * Rz`; with `x = -PI/2, y = PI/2, z = 0`
all entries are exact).  It maps `(x,y,z)` to `(z, -x, -y)`. -/
def fixedRot : Mat3 := ⟨⟨0,0,1⟩, ⟨-1,0,0⟩, ⟨0,-1,0⟩⟩

def vadd (a b : Vec3) : Vec3 := ⟨a.x + b.x, a.y + b.y, a.z + b.z⟩
def vmin (a b : Vec3) : Vec3 := ⟨min a.x b.x, min a.y b.y, min a.z b.z⟩
def vmax (a b : Vec3) : Vec3 := ⟨max a.x b.x, max a.y b.y, max a.z b.z⟩

/-- Component-wise scaling (`object.scale` applied to a local vertex). -/
def scaleVec (s p : Vec3) : Vec3 := ⟨s.x * p.x, s.y * p.y, s.z * p.z⟩

/-- A mesh node: local geometry vertices plus its local transform
(`position`, rotation, `scale`), mirroring a `THREE.Object3D` whose
local matrix is `T * R * S`. -/
structure Mesh where
  verts : List Vec3
  position : Vec3
  rot : Mat3
  scale : Vec3
deriving DecidableEq, Repr

/-- World-space position of a local vertex: `position + R * (S * p)`. -/
def worldVert (m : Mesh) (p : Vec3) : Vec3 :=
  vadd m.position (m.rot.mulVec (scaleVec m.scale p))

/-- An axis-aligned bounding box (`THREE.Box3`). -/
structure Box where
  bmin : Vec3
  bmax : Vec3
deriving DecidableEq, Repr

/-- `new THREE.Box3().setFromObject(object)`: the AABB of the mesh's
world-space vertices, `none` for empty geometry (an empty `Box3`). -/
def computeBox (m : Mesh) : Option Box :=
  match m.verts.map (worldVert m) with
  | [] => none
  | p :: rest => some (rest.foldl (fun b q => ⟨vmin b.bmin q, vmax b.bmax q⟩) ⟨p, p⟩)

/-- `box.getSize(...)`: `max - min` component-wise; an empty `Box3`
yields `(0,0,0)` (three.js `getSize` on an empty box). -/
def computeSize (m : Mesh) : Vec3 :=
  match computeBox m with
  | none => ⟨0, 0, 0⟩
  | some b => ⟨b.bmax.x - b.bmin.x, b.bmax.y - b.bmin.y, b.bmax.z - b.bmin.z⟩

/-- `box.getCenter(...)`: `(min + max)/2` component-wise; `(0,0,0)` for
an empty box. -/
def computeCenter (m : Mesh) : Vec3 :=
  match computeBox m with
  | none => ⟨0, 0, 0⟩
  | some b => ⟨(b.bmin.x + b.bmax.x) / 2, (b.bmin.y + b.bmax.y) / 2,
               (b.bmin.z + b.bmax.z) / 2⟩

/-- `Math.max(size.x, size.y, size.z)` of the mesh's measured bounds
(line 158). -/
def maxDimOf (m : Mesh) : ℚ :=
  let s := computeSize m
  max s.x (max s.y s.z)

/-- The mesh after lines 160-168 of the success callback:
`scale.setScalar(scale)`, then `position.set(0,0,0)`,
`rotation.set(0,0,0)`, then `rotation.x = -PI/2; rotation.y = PI/2`. -/
def scaledRotated (m : Mesh) (H : ℚ) : Mesh :=
  let size := computeSize m
  let targetSize := H * 3.2
  let maxDim := max size.x (max size.y size.z)
  let scale := targetSize / maxDim
  { m with scale := ⟨scale, scale, scale⟩, position := ⟨0, 0, 0⟩, rot := fixedRot }

/-- Result of the framing part of the OBJ-load success callback. -/
structure FrameResult where
  scale : ℚ
  mesh : Mesh
  pivotPos : Vec3
  pivotCreated : Bool
deriving DecidableEq, Repr

/-- The framing steps of `Renderer.loadModel`'s OBJ success callback
(lines 144-193), with viewport height `H` as a parameter:
measure the as-loaded object's box (line 145), compute
`scale = H*3.2 / maxDim` (lines 155-159, no degeneracy check — in ℚ the
division at `maxDim = 0` yields the junk value `0` where JS yields
`Infinity`; no claim uses the scale value in that regime), apply it
uniformly, reset position and rotation, apply the fixed rotation,
re-measure, and unconditionally create the pivot at
`(-center.x, size.y/2 - H*0.4, -center.z)` (lines 179-184). -/
def frameModel (m : Mesh) (H : ℚ) : FrameResult :=
  let size := computeSize m
  let targetSize := H * 3.2
  let maxDim := max size.x (max size.y size.z)
  let scale := targetSize / maxDim
  let obj := scaledRotated m H
  let rotatedCenter := computeCenter obj
  let rotatedSize := computeSize obj
  let viewportShift := H * 0.4
  { scale := scale
    mesh := obj
    pivotPos := ⟨-rotatedCenter.x, rotatedSize.y / 2 - viewportShift, -rotatedCenter.z⟩
    pivotCreated := true }

/-- `position.set(0,0,0); rotation.set(0,0,0)` — the reset alone
(spec §4.3 step 1). -/
def resetMesh (m : Mesh) : Mesh :=
  { m with position := ⟨0, 0, 0⟩, rot := idMat }

/-- Framing failure modes named by the specification §4.3/§7. -/
inductive FrameError where
  | degenerateGeometry
  | invalidCameraConfig
deriving DecidableEq, Repr

/-- Modelled from the spec: the §4.3 auto-framing algorithm with its
stated order (reset mesh first, measure B0 on the reset mesh, fail with
`DegenerateGeometry` when `maxDim <= 0`, scale, rotate, measure B1,
compute the pivot offset).  The source has no such reset-first order and
no degeneracy check; this definition exists only to compare the code
against the spec's wording. -/
def frameSpec (m : Mesh) (H : ℚ) : Except FrameError FrameResult :=
  let m0 := resetMesh m
  let size0 := computeSize m0
  let maxDim := max size0.x (max size0.y size0.z)
  if maxDim ≤ 0 then .error .degenerateGeometry
  else
    let targetSize := H * 3.2
    let scale := targetSize / maxDim
    let m1 := { m0 with scale := ⟨scale, scale, scale⟩, rot := fixedRot }
    let center1 := computeCenter m1
    let size1 := computeSize m1
    let viewportShift := H * 0.4
    .ok { scale := scale
          mesh := m1
          pivotPos := ⟨-center1.x, size1.y / 2 - viewportShift, -center1.z⟩
          pivotCreated := true }

/-- An untransformed cube mesh whose AABB is `min=(-1,-1,-1), max=(1,1,1)`
(size `(2,2,2)`), the spec's scale scenario. -/
def cubeMesh : Mesh := ⟨[⟨-1,-1,-1⟩, ⟨1,1,1⟩], ⟨0,0,0⟩, idMat, ⟨1,1,1⟩⟩

/-- A flat unit square loaded with a non-identity initial rotation
(the exact rational rotation with `cos = 3/5, sin = 4/5` about Z), so
that the bounds of the as-loaded mesh differ from the bounds after a
reset to identity rotation. -/
def rotSquareMesh : Mesh :=
  ⟨[⟨0,0,0⟩, ⟨1,0,0⟩, ⟨0,1,0⟩, ⟨1,1,0⟩], ⟨0,0,0⟩,
    ⟨⟨3/5,-4/5,0⟩, ⟨4/5,3/5,0⟩, ⟨0,0,1⟩⟩, ⟨1,1,1⟩⟩

/-- A degenerate mesh: a single vertex at the origin, so its box has
`min = max = (0,0,0)` and `maxDim = 0`. -/
def degMesh : Mesh := ⟨[⟨0,0,0⟩], ⟨0,0,0⟩, idMat, ⟨1,1,1⟩⟩

/-- Camera-configuration error named by the specification §4.2/§7. -/
inductive CamError where
  | invalidCameraConfig
deriving DecidableEq, Repr

/-- Line 154 of `main.js`:
`2 * Math.tan(vFOV / 2) * this.camera.position.length()`, with the FOV
already in radians (line 153 converts degrees to radians beforehand). -/
noncomputable def computeViewportHeight (fov dist : ℝ) : ℝ :=
  2 * Real.tan (fov / 2) * dist

/-- The viewport-height computation with an explicit error channel.
The source expression (lines 153-154) performs no validation of its
inputs and cannot throw, so the embedding always succeeds. -/
noncomputable def computeViewportHeightE (fov dist : ℝ) : Except CamError ℝ :=
  .ok (computeViewportHeight fov dist)

/-- The renderer's actual vertical FOV: `new THREE.PerspectiveCamera(18, …)`
(line 34), converted to radians on line 153. -/
noncomputable def rendererFov : ℝ := 18 * Real.pi / 180

/-- The renderer's actual camera distance:
`this.camera.position.set(2, 0, 0)` (line 39) has length `2`. -/
def rendererDist : ℝ := 2

/-- The animator-visible state: `this.pivot` (its Z rotation when a pivot
exists, `null` before the model is framed) and `this.targetRotation`. -/
structure ViewerRot where
  pivot : Option ℝ
  targetRotation : ℝ

/-- Line 115: `(Math.random() * 13 + 3) * Math.PI / 180`, the magnitude
of a freshly drawn target offset; `r1` stands for the `Math.random()`
draw. -/
noncomputable def newAngle (r1 : ℝ) : ℝ := (r1 * 13 + 3) * Real.pi / 180

/-- Lines 113-118: the target kept by one tick.  When
`|rotation.z - targetRotation| < 0.001` a new target
`rotation.z ± newAngle` is drawn (`r2` stands for the sign draw
`Math.random() > 0.5`); otherwise the target is unchanged. -/
noncomputable def nextTarget (rz tgtR r1 r2 : ℝ) : ℝ :=
  if |rz - tgtR| < 0.001 then
    rz + (if r2 > 0.5 then newAngle r1 else -newAngle r1)
  else tgtR

/-- `Renderer.updateRotation` (lines 109-123): bail out when
`this.pivot` is null; otherwise possibly draw a new target
(lines 113-118) and then always take one exponential-approach step
`rotation.z += (targetRotation - rotation.z) * 0.0015` (line 122) toward
the possibly-just-updated target. -/
noncomputable def updateRotation (s : ViewerRot) (r1 r2 : ℝ) : ViewerRot :=
  match s.pivot with
  | none => s
  | some rz =>
    let tgt := nextTarget rz s.targetRotation r1 r2
    ⟨some (rz + (tgt - rz) * 0.0015), tgt⟩

/-- Loader log diagnostics of `Renderer.loadModel` (`console.log` /
`console.error` calls; per-chunk progress logs are omitted). -/
inductive LogEvent where
  | startingLoad
  | mtlLoaded
  | objLoaded
  | errorMTL
  | errorOBJ
deriving DecidableEq, Repr

/-- Observable outcome of one `loadModel` run. -/
structure LoadOutcome where
  meshLoadAttempted : Bool
  pivot : Option Vec3
  model : Option Mesh
  animatorStarted : Bool
  log : List LogEvent

/-- `Renderer.loadModel` (lines 125-221) as a function of the results of
the two asynchronous loads: the OBJ load (`objLoader.load`) happens only
inside the MTL success callback; the framing callback and animator start
(lines 141-204) run only inside the OBJ success callback; each error
callback only logs.  `matRes` and `objRes` stand for the outcomes the
external loaders deliver, `H` for the viewport height computed on
lines 153-154. -/
def loadModel (matRes : Except Unit Unit) (objRes : Except Unit Mesh)
    (H : ℚ) : LoadOutcome :=
  match matRes with
  | .error _ =>
      { meshLoadAttempted := false, pivot := none, model := none,
        animatorStarted := false, log := [.startingLoad, .errorMTL] }
  | .ok _ =>
      match objRes with
      | .error _ =>
          { meshLoadAttempted := true, pivot := none, model := none,
            animatorStarted := false, log := [.startingLoad, .mtlLoaded, .errorOBJ] }
      | .ok obj =>
          let fr := frameModel obj H
          { meshLoadAttempted := true, pivot := some fr.pivotPos,
            model := some fr.mesh, animatorStarted := true,
            log := [.startingLoad, .mtlLoaded, .objLoaded] }

end DnaViewer

namespace DnaViewer

/-- Claim C1: for every mesh whose measured bounding-box size is
`(sx,sy,sz)` with positive largest dimension and every viewport height
`H`, the auto-framing scale factor is exactly `(H*3.2)/max(sx,sy,sz)`
and is applied uniformly to all three axes of the mesh. -/
theorem c1_scale_formula (m : Mesh) (H sx sy sz : ℚ)
    (hs : computeSize m = ⟨sx, sy, sz⟩) (_hpos : 0 < max sx (max sy sz)) :
    (frameModel m H).scale = (H * 3.2) / max sx (max sy sz) ∧
    (frameModel m H).mesh.scale =
      ⟨(H * 3.2) / max sx (max sy sz), (H * 3.2) / max sx (max sy sz),
       (H * 3.2) / max sx (max sy sz)⟩ := by
  constructor <;> simp [frameModel, scaledRotated, hs]

/-- Claim C1, witness: the spec's scenario — size `(2,2,2)`, `H = 5`
gives scale `8`, applied to all three axes. -/
theorem c1_scale_formula_witness :
    (frameModel cubeMesh 5).scale = 8 ∧
    (frameModel cubeMesh 5).mesh.scale = ⟨8, 8, 8⟩ := by
  have h := c1_scale_formula cubeMesh 5 2 2 2
    (by norm_num [cubeMesh, computeSize, computeBox, worldVert, vadd, vmin,
      vmax, scaleVec, Mat3.mulVec, dot, idMat])
    (by norm_num)
  refine ⟨?_, ?_⟩
  · rw [h.1]; norm_num
  · rw [h.2]; norm_num

/-- Claim C2: for every mesh whose bounding box measured after scale and
rotation has center `(cx,cy,cz)` and size `(sx,sy,sz)`, and every
viewport height `H`, the pivot is created at
`(-cx, sy/2 - H*0.4, -cz)`. -/
theorem c2_pivot_offset (m : Mesh) (H cx cy cz sx sy sz : ℚ)
    (hc : computeCenter (scaledRotated m H) = ⟨cx, cy, cz⟩)
    (hs : computeSize (scaledRotated m H) = ⟨sx, sy, sz⟩) :
    (frameModel m H).pivotPos = ⟨-cx, sy / 2 - H * 0.4, -cz⟩ := by
  simp [frameModel, hc, hs]

/-- Claim C2, witness: the cube mesh at `H = 10`; the post-scale-rotation
box is centered at the origin with size `(32,32,32)`, and the pivot lands
at `(0, 16 - 4, 0)`, the `sy/2 - 4.0` of the spec's `H = 10` instance. -/
theorem c2_pivot_offset_witness :
    (frameModel cubeMesh 10).pivotPos = ⟨0, 16 - 4, 0⟩ := by
  have h := c2_pivot_offset cubeMesh 10 0 0 0 32 32 32
    (by norm_num [cubeMesh, scaledRotated, computeCenter, computeSize,
      computeBox, worldVert, vadd, vmin, vmax, scaleVec, Mat3.mulVec, dot,
      fixedRot, idMat])
    (by norm_num [cubeMesh, scaledRotated, computeCenter, computeSize,
      computeBox, worldVert, vadd, vmin, vmax, scaleVec, Mat3.mulVec, dot,
      fixedRot, idMat])
  rw [h]; norm_num

/-- Claim C3, counterexample: the claim says the mesh is reset to origin
position and identity rotation before the first bounds measurement, and
that the scale is computed from that reset measurement.  On a mesh loaded
with a non-identity rotation the code's scale (measured as loaded,
`16/7`) differs from the reset-first scale (`16/5`): the code measures
first and resets only after scaling. -/
theorem c3_counterexample :
    (frameModel rotSquareMesh 1).scale ≠ 1 * 3.2 / maxDimOf (resetMesh rotSquareMesh) := by
  norm_num [frameModel, resetMesh, maxDimOf, computeSize, computeBox,
    worldVert, vadd, vmin, vmax, scaleVec, Mat3.mulVec, dot, idMat,
    rotSquareMesh]

/-- Claim C3, amended: the first bounds measurement is taken on the mesh
as loaded — before any reset — and the scale is computed from it; the
position/rotation reset happens after the scale is applied.  For a mesh
whose initial transform is already identity (as a fresh loader output
is), this coincides with the spec's reset-first measurement. -/
theorem c3_amended (m : Mesh) (H : ℚ) :
    (frameModel m H).scale = H * 3.2 / maxDimOf m ∧
    (m.position = ⟨0, 0, 0⟩ → m.rot = idMat →
      (frameModel m H).scale = H * 3.2 / maxDimOf (resetMesh m)) := by
  have hbase : (frameModel m H).scale = H * 3.2 / maxDimOf m := by
    simp [frameModel, maxDimOf]
  refine ⟨hbase, fun hp hr => ?_⟩
  have hm : resetMesh m = m := by
    cases m with
    | mk verts position rot scale => simp_all [resetMesh]
  rw [hm, hbase]

/-- Claim C3, amended, witness: on the identity-transform cube mesh the
code's scale agrees with the reset-first computation. -/
theorem c3_amended_witness :
    (frameModel cubeMesh 5).scale = 5 * 3.2 / maxDimOf (resetMesh cubeMesh) :=
  (c3_amended cubeMesh 5).2 rfl rfl

/-- Claim C6, counterexample: the degenerate mesh with
`min = max = (0,0,0)` has `maxDim = 0 ≤ 0`, yet the code raises no
`DegenerateGeometry` error and still creates the pivot — the source has
no degeneracy check at all. -/
theorem c6_counterexample :
    maxDimOf degMesh ≤ 0 ∧ (frameModel degMesh 5).pivotCreated = true := by
  constructor
  · norm_num [maxDimOf, degMesh, computeSize, computeBox, worldVert, vadd,
      vmin, vmax, scaleVec, Mat3.mulVec, dot, idMat]
  · rfl

/-- Claim C6, amended: the code performs no degeneracy check — the pivot
is created unconditionally for every mesh and viewport height (with a
division by zero producing the scale in the degenerate case), whereas the
spec's algorithm rejects the degenerate mesh with `DegenerateGeometry`
and would not create a pivot. -/
theorem c6_amended (m : Mesh) (H : ℚ) :
    (frameModel m H).pivotCreated = true ∧
    frameSpec degMesh 5 = .error .degenerateGeometry := by
  refine ⟨rfl, ?_⟩
  norm_num [frameSpec, degMesh, resetMesh, computeSize, computeBox,
    worldVert, vadd, vmin, vmax, scaleVec, Mat3.mulVec, dot, idMat]

/-- Claim C7, counterexample: the claim says the viewport-height
computation fails with `InvalidCameraConfig` on invalid input.  The
distance `0` is invalid (zero camera distance), yet the code signals no
error there — the source performs no validation at all. -/
theorem c7_counterexample :
    (0 : ℝ) ≤ 0 ∧
    ∀ e : CamError, computeViewportHeightE (Real.pi / 2) 0 ≠ Except.error e := by
  exact ⟨le_refl 0, fun e h => by simp [computeViewportHeightE] at h⟩

/-- Claim C7, amended: the code performs no input validation — the
viewport-height computation always succeeds, returning
`2 * tan(fov/2) * distance` unconditionally; no `InvalidCameraConfig`
error exists in the source.  The program's only camera (FOV 18 degrees,
distance 2) is valid and yields a strictly positive height, so the
missing check is never exercised. -/
theorem c7_amended (fov dist : ℝ) :
    computeViewportHeightE fov dist = .ok (2 * Real.tan (fov / 2) * dist) ∧
    0 < computeViewportHeight rendererFov rendererDist := by
  constructor
  · rfl
  · have hpi := Real.pi_pos
    have htan : 0 < Real.tan (rendererFov / 2) := by
      apply Real.tan_pos_of_pos_of_lt_pi_div_two
      · unfold rendererFov; linarith
      · unfold rendererFov; nlinarith
    unfold computeViewportHeight rendererDist
    nlinarith

/-- Claim C8: for every camera distance `> 0` and FOV in `(0, π)`, the
computed viewport height equals `2 * tan(fov/2) * distance`, is strictly
positive, and is strictly increasing in both the FOV and the distance. -/
theorem c8_viewport_height (fov dist : ℝ) (hd : 0 < dist) (h0 : 0 < fov)
    (hpi : fov < Real.pi) :
    computeViewportHeight fov dist = 2 * Real.tan (fov / 2) * dist ∧
    0 < computeViewportHeight fov dist ∧
    (∀ fov', fov' < Real.pi → fov < fov' →
      computeViewportHeight fov dist < computeViewportHeight fov' dist) ∧
    (∀ dist', dist < dist' →
      computeViewportHeight fov dist < computeViewportHeight fov dist') := by
  have hpipos := Real.pi_pos
  have htan : 0 < Real.tan (fov / 2) := by
    apply Real.tan_pos_of_pos_of_lt_pi_div_two <;> linarith
  refine ⟨rfl, ?_, ?_, ?_⟩
  · unfold computeViewportHeight; nlinarith
  · intro fov' hfov'pi hlt
    have htt : Real.tan (fov / 2) < Real.tan (fov' / 2) := by
      apply Real.tan_lt_tan_of_lt_of_lt_pi_div_two <;> linarith
    unfold computeViewportHeight
    nlinarith
  · intro dist' hlt
    unfold computeViewportHeight
    nlinarith

/-- Claim C8, witness: at `fov = π/2, dist = 1` the height is positive
and smaller than at distance `2`. -/
theorem c8_viewport_height_witness :
    0 < computeViewportHeight (Real.pi / 2) 1 ∧
    computeViewportHeight (Real.pi / 2) 1 < computeViewportHeight (Real.pi / 2) 2 := by
  have h := c8_viewport_height (Real.pi / 2) 1 (by norm_num)
    (by positivity) (by linarith [Real.pi_pos])
  exact ⟨h.2.1, h.2.2.2 2 (by norm_num)⟩

/-- Claim C4: with the random draws in `[0,1)`, one animator tick on a
present pivot replaces the target exactly when
`|current - target| < 0.001`, and the replacement sets
`target = current ± Δ` with the drawn magnitude `Δ` inside
`[3°, 16°]` in radians. -/
theorem c4_target_replacement (rz tgtR r1 r2 : ℝ) (h0 : 0 ≤ r1) (h1 : r1 < 1) :
    ((updateRotation ⟨some rz, tgtR⟩ r1 r2).targetRotation ≠ tgtR ↔
      |rz - tgtR| < 0.001) ∧
    (|rz - tgtR| < 0.001 →
      (updateRotation ⟨some rz, tgtR⟩ r1 r2).targetRotation =
        rz + (if r2 > 0.5 then newAngle r1 else -newAngle r1) ∧
      3 * Real.pi / 180 ≤ newAngle r1 ∧ newAngle r1 ≤ 16 * Real.pi / 180) := by
  have hpi := Real.pi_pos
  have hpi3 := Real.pi_gt_three
  have hA3 : (3 : ℝ) * Real.pi / 180 ≤ newAngle r1 := by
    unfold newAngle; nlinarith
  have hA16 : newAngle r1 ≤ 16 * Real.pi / 180 := by
    unfold newAngle; nlinarith
  have hAgt : (0.001 : ℝ) < newAngle r1 := by nlinarith
  have hupd : (updateRotation ⟨some rz, tgtR⟩ r1 r2).targetRotation =
      nextTarget rz tgtR r1 r2 := rfl
  by_cases hc : |rz - tgtR| < 0.001
  · have htgt : nextTarget rz tgtR r1 r2 =
        rz + (if r2 > 0.5 then newAngle r1 else -newAngle r1) := by
      unfold nextTarget; rw [if_pos hc]
    refine ⟨⟨fun _ => hc, fun _ => ?_⟩, fun _ => ⟨by rw [hupd, htgt], hA3, hA16⟩⟩
    rw [hupd, htgt]
    intro heq
    have habs : |rz - tgtR| ≥ newAngle r1 := by
      by_cases hr2 : r2 > 0.5
      · rw [if_pos hr2] at heq
        have : rz - tgtR = -newAngle r1 := by linarith
        rw [this, abs_neg, abs_of_pos (by linarith : (0:ℝ) < newAngle r1)]
      · rw [if_neg hr2] at heq
        have : rz - tgtR = newAngle r1 := by linarith
        rw [this, abs_of_pos (by linarith : (0:ℝ) < newAngle r1)]
    linarith
  · have htgt : nextTarget rz tgtR r1 r2 = tgtR := by
      unfold nextTarget; rw [if_neg hc]
    refine ⟨⟨fun hne => absurd (by rw [hupd, htgt]) hne, fun hlt => absurd hlt hc⟩,
      fun hlt => absurd hlt hc⟩

/-- Claim C4, witness: at the converged state `current = target = 0`
with draws `r1 = r2 = 0`, the target is replaced by `0 - newAngle 0`,
which is nonzero. -/
theorem c4_target_replacement_witness :
    (updateRotation ⟨some 0, 0⟩ 0 0).targetRotation ≠ 0 ∧
    3 * Real.pi / 180 ≤ newAngle 0 := by
  have h := c4_target_replacement 0 0 0 0 (le_refl 0) (by norm_num)
  exact ⟨h.1.mpr (by norm_num), (h.2 (by norm_num)).2.1⟩

/-- Claim C5: in the approaching regime (`|current - target| ≥ 0.001`)
one tick keeps the target, moves `current` by
`(target - current) * 0.0015`, multiplies the remaining distance by the
exact factor `0.9985` (hence strictly decreases it), never lands exactly
on the target, and never flips the sign of `target - current`. -/
theorem c5_exponential_approach (rz tgtR r1 r2 : ℝ)
    (h : 0.001 ≤ |rz - tgtR|) :
    (updateRotation ⟨some rz, tgtR⟩ r1 r2).targetRotation = tgtR ∧
    (updateRotation ⟨some rz, tgtR⟩ r1 r2).pivot =
      some (rz + (tgtR - rz) * 0.0015) ∧
    |tgtR - (rz + (tgtR - rz) * 0.0015)| = 0.9985 * |tgtR - rz| ∧
    |tgtR - (rz + (tgtR - rz) * 0.0015)| < |tgtR - rz| ∧
    rz + (tgtR - rz) * 0.0015 ≠ tgtR ∧
    (0 < tgtR - rz → 0 < tgtR - (rz + (tgtR - rz) * 0.0015)) ∧
    (tgtR - rz < 0 → tgtR - (rz + (tgtR - rz) * 0.0015) < 0) := by
  have hc : ¬ |rz - tgtR| < 0.001 := not_lt.mpr h
  have htgt : nextTarget rz tgtR r1 r2 = tgtR := by
    unfold nextTarget; rw [if_neg hc]
  have hkey : tgtR - (rz + (tgtR - rz) * 0.0015) = (tgtR - rz) * 0.9985 := by
    ring
  have hdpos : 0 < |tgtR - rz| := by
    rw [abs_sub_comm]; linarith
  have habs : |tgtR - (rz + (tgtR - rz) * 0.0015)| = 0.9985 * |tgtR - rz| := by
    rw [hkey, abs_mul, abs_of_pos (by norm_num : (0:ℝ) < 0.9985), mul_comm]
  refine ⟨?_, ?_, habs, ?_, ?_, ?_, ?_⟩
  · show nextTarget rz tgtR r1 r2 = tgtR
    exact htgt
  · show (some (rz + (nextTarget rz tgtR r1 r2 - rz) * 0.0015) : Option ℝ) = _
    rw [htgt]
  · rw [habs]; nlinarith
  · intro heq
    have h0 : tgtR - (rz + (tgtR - rz) * 0.0015) = 0 := by rw [heq]; ring
    rw [hkey] at h0
    have : tgtR - rz = 0 := by nlinarith
    rw [abs_sub_comm] at h
    rw [this] at h
    simp at h
    linarith
  · intro hpos; rw [hkey]; nlinarith
  · intro hneg; rw [hkey]; nlinarith

/-- Claim C5, witness: from `current = 0, target = 1` the distance
`1` shrinks to exactly `0.9985` and the target is kept. -/
theorem c5_exponential_approach_witness :
    (updateRotation ⟨some 0, 1⟩ 0 0).targetRotation = 1 ∧
    |1 - ((0:ℝ) + (1 - 0) * 0.0015)| = 0.9985 * |1 - (0:ℝ)| := by
  have h := c5_exponential_approach 0 1 0 0
    (by rw [zero_sub, abs_neg, abs_one]; norm_num)
  exact ⟨h.1, h.2.2.1⟩

/-- Claim C9: when the material load fails the mesh load is never
attempted, the failure is logged, and the animator is never started;
when either load fails the animator is not started and neither a pivot
nor a model appears. -/
theorem c9_load_failure (matRes : Except Unit Unit) (objRes : Except Unit Mesh)
    (H : ℚ) :
    (∀ e, matRes = .error e →
      (loadModel matRes objRes H).meshLoadAttempted = false ∧
      LogEvent.errorMTL ∈ (loadModel matRes objRes H).log ∧
      (loadModel matRes objRes H).animatorStarted = false) ∧
    (((∃ e, matRes = .error e) ∨ (∃ e, objRes = .error e)) →
      (loadModel matRes objRes H).animatorStarted = false ∧
      (loadModel matRes objRes H).pivot = none ∧
      (loadModel matRes objRes H).model = none) := by
  cases matRes <;> cases objRes <;> simp [loadModel]

/-- Claim C9, witness: a failed material load with a loadable mesh —
no mesh load attempt, the failure logged, no animator, no pivot. -/
theorem c9_load_failure_witness :
    (loadModel (.error ()) (.ok cubeMesh) 5).meshLoadAttempted = false ∧
    LogEvent.errorMTL ∈ (loadModel (.error ()) (.ok cubeMesh) 5).log ∧
    (loadModel (.error ()) (.ok cubeMesh) 5).animatorStarted = false ∧
    (loadModel (.error ()) (.ok cubeMesh) 5).pivot = none := by
  have h := c9_load_failure (.error ()) (.ok cubeMesh) 5
  have h1 := h.1 () rfl
  have h2 := h.2 (Or.inl ⟨(), rfl⟩)
  exact ⟨h1.1, h1.2.1, h1.2.2, h2.2.1⟩

/-- Claim C10: while no pivot exists (`this.pivot` is null), one
animator tick is a total no-op: it returns without failing and leaves
the whole state — current rotation and target rotation included —
unchanged. -/
theorem c10_null_pivot_noop (s : ViewerRot) (r1 r2 : ℝ) (h : s.pivot = none) :
    updateRotation s r1 r2 = s := by
  cases s with
  | mk p t =>
    cases p with
    | none => rfl
    | some rz => simp at h

/-- Claim C10, witness: the pre-framing state with target `0` is left
untouched by a tick. -/
theorem c10_null_pivot_noop_witness :
    updateRotation ⟨none, 0⟩ 0 0 = ⟨none, 0⟩ :=
  c10_null_pivot_noop ⟨none, 0⟩ 0 0 rfl

end DnaViewer
